import Mathlib

/-!
# Room State Synchronization Engine — verification of the classroom client

Shallow embedding of the signaling/state logic of the classroom frontend
(`ClassroomPage.jsx` and the `SocketProvider` channel context), together
with theorems settling the frozen claims about it.

Participants are JS objects with a `user_id` identity plus further fields;
we model the further fields as an association list of string key/value
pairs, looked up first-occurrence-wins, which matches JS object field
lookup for objects without duplicate keys.
-/

/-- A participant object: the `user_id` identity plus its other fields
(`name`, `is_hand_raised`, ...), modelled as key/value pairs. -/
structure Participant where
  user_id : Nat
  attrs : List (String × String)
deriving DecidableEq, Repr

/-- A chat message: its identity and its content payload. -/
structure ChatMessage where
  id : Nat
  content : String
deriving DecidableEq, Repr

/-- First-occurrence lookup of a field in a JS-object field list. -/
def lookupAttr : List (String × String) → String → Option String
  | [], _ => none
  | (k, v) :: rest, key => if k = key then some v else lookupAttr rest key

/-- JS spread merge `{ ...p, ...d }` on participant objects: the result has
every key of `p` and of `d`; a key present in `d` takes `d`'s value, a key
only in `p` keeps `p`'s value, and `user_id` comes from `d` (the spread
puts `d`'s fields last). Keys of `p` keep their position, new keys of `d`
follow, matching JS object key order. -/
def spreadMerge (p d : Participant) : Participant :=
  { user_id := d.user_id,
    attrs :=
      p.attrs.map (fun kv =>
        match lookupAttr d.attrs kv.1 with
        | some v => (kv.1, v)
        | none => kv)
      ++ d.attrs.filter (fun kv => (lookupAttr p.attrs kv.1).isNone) }

/-- `handleRoomState` (ClassroomPage.jsx:82-84):
`setParticipants(data.participants || [])` — the previous registry is
discarded and replaced by the event's list, or by `[]` when the payload
carries no list. -/
def handleRoomState (_prev : List Participant)
    (dataParticipants : Option (List Participant)) : List Participant :=
  dataParticipants.getD []

/-- `handleParticipantJoined` (ClassroomPage.jsx:86-95): if an entry with
the same `user_id` already exists (`prev.find(...)` is truthy) the event
is a no-op, otherwise the participant is appended (`[...prev, participant]`). -/
def handleParticipantJoined (prev : List Participant) (p : Participant) :
    List Participant :=
  if prev.any (fun q => q.user_id = p.user_id) then prev else prev ++ [p]

/-- `handleParticipantLeft` (ClassroomPage.jsx:97-100):
`prev.filter(p => p.user_id !== data.user_id)`. -/
def handleParticipantLeft (prev : List Participant) (uid : Nat) :
    List Participant :=
  prev.filter (fun p => p.user_id ≠ uid)

/-- `handleParticipantUpdated` (ClassroomPage.jsx:102-106):
`prev.map(p => p.user_id === data.user_id ? { ...p, ...data } : p)`. -/
def handleParticipantUpdated (prev : List Participant) (d : Participant) :
    List Participant :=
  prev.map (fun p => if p.user_id = d.user_id then spreadMerge p d else p)

/-- `handleNewMessage` (ClassroomPage.jsx:114-116):
`setMessages(prev => [...prev, message])` — an unconditional append. -/
def handleNewMessage (prev : List ChatMessage) (m : ChatMessage) :
    List ChatMessage :=
  prev ++ [m]

/-- One inbound registry event, as dispatched by the socket handlers. -/
inductive RegOp where
  | joined (p : Participant)
  | updated (d : Participant)
  | removed (uid : Nat)
deriving DecidableEq, Repr

/-- Dispatch of one registry event to its handler. -/
def applyRegOp (prev : List Participant) : RegOp → List Participant
  | .joined p => handleParticipantJoined prev p
  | .updated d => handleParticipantUpdated prev d
  | .removed uid => handleParticipantLeft prev uid

/-- Delivery of a finite sequence of registry events, in order. -/
def applyRegOps (prev : List Participant) (ops : List RegOp) : List Participant :=
  ops.foldl applyRegOp prev

/-- The participant identities currently in the registry, in order. -/
def registryIds (l : List Participant) : List Nat :=
  l.map Participant.user_id

-- ### Helper lemmas about the registry handlers

theorem lookupAttr_append (l1 l2 : List (String × String)) (k : String) :
    lookupAttr (l1 ++ l2) k =
      match lookupAttr l1 k with
      | some v => some v
      | none => lookupAttr l2 k := by
  induction l1 with
  | nil => rfl
  | cons kv rest ih =>
    rcases kv with ⟨k0, v0⟩
    by_cases h : k0 = k
    · simp [lookupAttr, h]
    · simp [lookupAttr, h, ih]

theorem lookupAttr_patched (dattrs : List (String × String))
    (l : List (String × String)) (k : String) :
    lookupAttr (l.map (fun kv =>
        match lookupAttr dattrs kv.1 with
        | some v => (kv.1, v)
        | none => kv)) k =
      match lookupAttr l k with
      | some v =>
        match lookupAttr dattrs k with
        | some w => some w
        | none => some v
      | none => none := by
  induction l with
  | nil => rfl
  | cons kv rest ih =>
    rcases kv with ⟨k0, v0⟩
    by_cases h : k0 = k
    · subst h
      cases hd : lookupAttr dattrs k0 <;> simp [lookupAttr, hd]
    · cases hd : lookupAttr dattrs k0 <;> simp [lookupAttr, hd, h, ih]

theorem lookupAttr_filter_absent (pattrs l : List (String × String))
    (k : String) :
    lookupAttr (l.filter (fun kv => (lookupAttr pattrs kv.1).isNone)) k =
      if (lookupAttr pattrs k).isNone then lookupAttr l k else none := by
  induction l with
  | nil => simp [lookupAttr]
  | cons kv rest ih =>
    rcases kv with ⟨k0, v0⟩
    by_cases hf : (lookupAttr pattrs k0).isNone
    · by_cases h : k0 = k
      · subst h; simp [lookupAttr, hf]
      · simp [List.filter, lookupAttr, hf, h, ih]
    · by_cases h : k0 = k
      · subst h
        simp [List.filter, lookupAttr, hf, ih]
      · simp [List.filter, lookupAttr, hf, h, ih]

/-- Field law of the JS spread merge: a key present in the patch takes the
patch's value, any other key keeps the prior entry's value. -/
theorem lookupAttr_spreadMerge (p d : Participant) (k : String) :
    lookupAttr (spreadMerge p d).attrs k =
      if (lookupAttr d.attrs k).isSome then lookupAttr d.attrs k
      else lookupAttr p.attrs k := by
  unfold spreadMerge
  rw [lookupAttr_append, lookupAttr_patched, lookupAttr_filter_absent]
  cases hd : lookupAttr d.attrs k <;> cases hp : lookupAttr p.attrs k <;>
    simp [hd, hp]

/-- A patch for an identity with no matching entry leaves the registry
list unchanged. -/
theorem handleParticipantUpdated_of_absent (prev : List Participant)
    (d : Participant) (h : ∀ p ∈ prev, p.user_id ≠ d.user_id) :
    handleParticipantUpdated prev d = prev := by
  unfold handleParticipantUpdated
  rw [List.map_congr_left (g := id), List.map_id]
  intro p hp
  simp [h p hp]

theorem registryIds_updated (prev : List Participant) (d : Participant) :
    registryIds (handleParticipantUpdated prev d) = registryIds prev := by
  unfold registryIds handleParticipantUpdated
  rw [List.map_map]
  apply List.map_congr_left
  intro p _
  by_cases h : p.user_id = d.user_id
  · simp [Function.comp, h, spreadMerge]
  · simp [Function.comp, h]

theorem registryIds_left_sublist (prev : List Participant) (uid : Nat) :
    (registryIds (handleParticipantLeft prev uid)).Sublist (registryIds prev) :=
  List.Sublist.map Participant.user_id (List.filter_sublist prev)

theorem not_mem_registryIds_of_not_any (prev : List Participant)
    (p : Participant)
    (h : prev.any (fun q => q.user_id = p.user_id) = false) :
    p.user_id ∉ registryIds prev := by
  intro hmem
  rcases List.mem_map.mp hmem with ⟨q, hq, hid⟩
  have := List.any_eq_false.mp h q hq
  simp [hid] at this

theorem nodup_registryIds_applyRegOp (prev : List Participant) (op : RegOp)
    (h : (registryIds prev).Nodup) :
    (registryIds (applyRegOp prev op)).Nodup := by
  cases op with
  | joined p =>
    unfold applyRegOp handleParticipantJoined
    by_cases hex : prev.any (fun q => q.user_id = p.user_id)
    · simpa [hex] using h
    · have hfresh := not_mem_registryIds_of_not_any prev p
        (Bool.eq_false_iff.mpr hex)
      simp only [hex, if_false, Bool.false_eq_true]
      unfold registryIds
      rw [List.map_append]
      simp only [List.map_cons, List.map_nil]
      rw [List.nodup_append]
      refine ⟨h, List.nodup_singleton _, ?_⟩
      intro a ha hb
      simp only [List.mem_singleton] at hb
      subst hb
      exact hfresh ha
  | updated d =>
    unfold applyRegOp
    rw [registryIds_updated]
    exact h
  | removed uid =>
    exact (registryIds_left_sublist prev uid).nodup h

-- ### C3: chat log de-duplication

/-- C3 counterexample: the chat log `[⟨0,"hi"⟩]` already contains the
identity of the incoming message `⟨0,"hi"⟩`, yet `handleNewMessage` does
not leave the log unchanged — it appends a second copy, so the claim's
"appending leaves the log unchanged" is false on the code. -/
theorem handleNewMessage_dedup_fails :
    ¬ (handleNewMessage [ChatMessage.mk 0 "hi"] (ChatMessage.mk 0 "hi")
        = [ChatMessage.mk 0 "hi"]) := by
  decide

/-- C3 (amended): `handleNewMessage` appends unconditionally, with no
identity de-duplication: every delivery grows the log by exactly one, so
delivering the same message twice yields a log of length n+2, not n+1. -/
theorem handleNewMessage_always_appends (prev : List ChatMessage)
    (m : ChatMessage) :
    (handleNewMessage prev m).length = prev.length + 1 ∧
    (handleNewMessage (handleNewMessage prev m) m).length = prev.length + 2 := by
  constructor <;> simp [handleNewMessage]

-- ### C7: room_state is an authoritative full replace

/-- C7: processing a `room_state` event carrying participant list `S`
leaves the registry exactly equal to `S`, whatever the prior registry
contents were; a payload with no list resets the registry to `[]`. -/
theorem handleRoomState_replaces_all (prev S : List Participant) :
    handleRoomState prev (some S) = S ∧ handleRoomState prev none = [] :=
  ⟨rfl, rfl⟩

-- ### C10: removal of an absent identity; idempotence of removal

/-- C10: a `participant_left` event for an identity not in the registry
leaves the registry unchanged, and removal is idempotent: removing the
same identity twice equals removing it once. -/
theorem handleParticipantLeft_absent_and_idempotent (prev : List Participant)
    (uid : Nat) :
    (uid ∉ registryIds prev → handleParticipantLeft prev uid = prev) ∧
    handleParticipantLeft (handleParticipantLeft prev uid) uid
      = handleParticipantLeft prev uid := by
  constructor
  · intro habs
    unfold handleParticipantLeft
    apply List.filter_eq_self.mpr
    intro p hp
    simp only [ne_eq, decide_eq_true_eq]
    intro hEq
    exact habs (List.mem_map.mpr ⟨p, hp, hEq⟩)
  · unfold handleParticipantLeft
    apply List.filter_eq_self.mpr
    intro p hp
    have := List.of_mem_filter hp
    simpa using this

/-- C10 witness: removing identity 3, absent from a concrete two-entry
registry, leaves it unchanged; removal there is idempotent. -/
theorem handleParticipantLeft_absent_and_idempotent_check :
    handleParticipantLeft [Participant.mk 1 [], Participant.mk 2 []] 3
        = [Participant.mk 1 [], Participant.mk 2 []] ∧
    handleParticipantLeft
        (handleParticipantLeft [Participant.mk 1 [], Participant.mk 2 []] 3) 3
      = handleParticipantLeft [Participant.mk 1 [], Participant.mk 2 []] 3 :=
  ⟨(handleParticipantLeft_absent_and_idempotent
      [Participant.mk 1 [], Participant.mk 2 []] 3).1 (by decide),
   (handleParticipantLeft_absent_and_idempotent
      [Participant.mk 1 [], Participant.mk 2 []] 3).2⟩

-- ### C6: no duplicate identities under any event interleaving

/-- C6: starting from a registry with no duplicate identities, any finite
sequence of `participant_joined` / `participant_updated` /
`participant_left` events, in any interleaving, leaves a registry with at
most one entry per identity. -/
theorem applyRegOps_nodup_ids (init : List Participant) (ops : List RegOp)
    (h : (registryIds init).Nodup) :
    (registryIds (applyRegOps init ops)).Nodup := by
  induction ops generalizing init with
  | nil => exact h
  | cons op rest ih =>
    exact ih (applyRegOp init op) (nodup_registryIds_applyRegOp init op h)

/-- C6 witness: a concrete interleaving — joined 2, a duplicate joined 2,
updated 1, removed 1, joined 1 — starting from the one-entry registry
`[⟨1,…⟩]`, keeps identities duplicate-free. -/
theorem applyRegOps_nodup_ids_check :
    (registryIds [Participant.mk 1 [("name", "A")]]).Nodup ∧
    (registryIds (applyRegOps [Participant.mk 1 [("name", "A")]]
      [RegOp.joined (Participant.mk 2 [("name", "B")]),
       RegOp.joined (Participant.mk 2 [("name", "B2")]),
       RegOp.updated (Participant.mk 1 [("is_hand_raised", "true")]),
       RegOp.removed 1,
       RegOp.joined (Participant.mk 1 [("name", "A")])])).Nodup :=
  ⟨by decide,
   applyRegOps_nodup_ids [Participant.mk 1 [("name", "A")]]
     [RegOp.joined (Participant.mk 2 [("name", "B")]),
      RegOp.joined (Participant.mk 2 [("name", "B2")]),
      RegOp.updated (Participant.mk 1 [("is_hand_raised", "true")]),
      RegOp.removed 1,
      RegOp.joined (Participant.mk 1 [("name", "A")])]
     (by decide)⟩

-- ### C8: participant_updated is a field merge, no-op when absent

/-- C8: a `participant_updated` patch for an identity absent from the
registry changes nothing; for each entry whose identity matches, the merged
entry is in the resulting registry, its identity is unchanged, a field
present in the patch takes the patch's value, and every field not present
in the patch keeps the entry's prior value. -/
theorem handleParticipantUpdated_merge_semantics (prev : List Participant)
    (d : Participant) :
    (d.user_id ∉ registryIds prev → handleParticipantUpdated prev d = prev) ∧
    ∀ p ∈ prev, p.user_id = d.user_id →
      spreadMerge p d ∈ handleParticipantUpdated prev d ∧
      (spreadMerge p d).user_id = p.user_id ∧
      ∀ k, lookupAttr (spreadMerge p d).attrs k =
        if (lookupAttr d.attrs k).isSome then lookupAttr d.attrs k
        else lookupAttr p.attrs k := by
  constructor
  · intro habs
    apply handleParticipantUpdated_of_absent
    intro p hp hEq
    exact habs (List.mem_map.mpr ⟨p, hp, hEq⟩)
  · intro p hp hid
    refine ⟨?_, ?_, lookupAttr_spreadMerge p d⟩
    · unfold handleParticipantUpdated
      have : spreadMerge p d =
          (fun q => if q.user_id = d.user_id then spreadMerge q d else q) p := by
        simp [hid]
      rw [this]
      exact List.mem_map_of_mem _ hp
    · simp [spreadMerge, hid]

/-- C8 witness: patching identity 9 (absent) is a no-op on `[⟨1,…⟩]`; on
the matching entry `⟨1, [("name","A"),("muted","false")]⟩`, the patch
`⟨1, [("muted","true")]⟩` keeps `name` and overwrites `muted`. -/
theorem handleParticipantUpdated_merge_semantics_check :
    handleParticipantUpdated [Participant.mk 1 [("name", "A")]]
        (Participant.mk 9 [("muted", "true")])
      = [Participant.mk 1 [("name", "A")]] ∧
    lookupAttr (spreadMerge
        (Participant.mk 1 [("name", "A"), ("muted", "false")])
        (Participant.mk 1 [("muted", "true")])).attrs "name" = some "A" ∧
    lookupAttr (spreadMerge
        (Participant.mk 1 [("name", "A"), ("muted", "false")])
        (Participant.mk 1 [("muted", "true")])).attrs "muted" = some "true" := by
  refine ⟨(handleParticipantUpdated_merge_semantics
      [Participant.mk 1 [("name", "A")]]
      (Participant.mk 9 [("muted", "true")])).1 (by decide), ?_, ?_⟩
  · have h := ((handleParticipantUpdated_merge_semantics
        [Participant.mk 1 [("name", "A"), ("muted", "false")]]
        (Participant.mk 1 [("muted", "true")])).2
        (Participant.mk 1 [("name", "A"), ("muted", "false")])
        (by decide) (by decide)).2.2 "name"
    rw [h]; decide
  · have h := ((handleParticipantUpdated_merge_semantics
        [Participant.mk 1 [("name", "A"), ("muted", "false")]]
        (Participant.mk 1 [("muted", "true")])).2
        (Participant.mk 1 [("name", "A"), ("muted", "false")])
        (by decide) (by decide)).2.2 "muted"
    rw [h]; decide

-- ### C5: removal is not protected against later joined events

/-- C5 counterexample: after `participant_left` removes identity 1, a
`participant_joined` for identity 1 re-creates the entry — the removed
identity is present again, so "a subsequent stale joined event does not
re-create an entry" is false on the code (the payloads carry no logical
clocks at all). -/
theorem removed_participant_resurrected :
    ¬ (∀ p ∈ handleParticipantJoined
          (handleParticipantLeft [Participant.mk 1 [("name", "A")]] 1)
          (Participant.mk 1 [("name", "A")]), p.user_id ≠ 1) := by
  decide

/-- C5 (amended): removal is not guarded by any logical clock: after a
`participant_left` for an identity, a subsequent `participant_joined` for
that identity always re-creates an entry for it; only a subsequent
`participant_updated` for the removed identity leaves the registry
unchanged. -/
theorem removal_not_clock_protected (prev : List Participant)
    (p : Participant) :
    p.user_id ∈ registryIds
      (handleParticipantJoined (handleParticipantLeft prev p.user_id) p) ∧
    handleParticipantUpdated (handleParticipantLeft prev p.user_id) p
      = handleParticipantLeft prev p.user_id := by
  have hnone : ∀ q ∈ handleParticipantLeft prev p.user_id,
      q.user_id ≠ p.user_id := by
    intro q hq
    have := List.of_mem_filter hq
    simpa using this
  constructor
  · unfold handleParticipantJoined
    have hany : (handleParticipantLeft prev p.user_id).any
        (fun q => q.user_id = p.user_id) = false := by
      apply List.any_eq_false.mpr
      intro q hq
      simpa using hnone q hq
    rw [hany]
    simp [registryIds]
  · exact handleParticipantUpdated_of_absent _ p hnone

-- ### C4: hand-raise toggle while disconnected

/-- `SocketProvider.emit` (SocketContext): if the socket is connected the
event is sent; otherwise nothing is sent and a console warning
`Socket not connected, cannot emit: <event>` is recorded. The caller is
given no return value or callback — the drop is signalled only to the
console. Result: (events actually sent, console warnings). -/
def socketEmit (connected : Bool) (event : String) :
    List String × List String :=
  if connected then ([event], [])
  else ([], ["Socket not connected, cannot emit: " ++ event])

/-- Outcome of one `toggleHand` invocation: the new local hand flag, the
events that actually went out on the socket, the console warnings, and
the error toasts surfaced to the user. -/
structure ToggleHandResult where
  isHandRaised : Bool
  sentEvents : List String
  warnings : List String
  errorToasts : List String
deriving DecidableEq, Repr

/-- `toggleHand` (ClassroomPage.jsx:152-156): flips the optimistic local
flag unconditionally, then calls `emit('raise_hand', …)`; it never
inspects the connection state, never reverts the flag, and never raises
an error toast. -/
def toggleHand (connected : Bool) (isHandRaised : Bool) : ToggleHandResult :=
  let newState := !isHandRaised
  let sent := socketEmit connected "raise_hand"
  { isHandRaised := newState,
    sentEvents := sent.1,
    warnings := sent.2,
    errorToasts := [] }

/-- C4 counterexample: with the channel disconnected and the hand lowered,
toggling does leave `raise_hand` unsent, but the optimistic flag is NOT
rolled back to its prior value `false` and no failure is surfaced to the
user — so the claim's conjunction is false on the code. -/
theorem toggleHand_disconnected_claim_fails :
    ¬ ((toggleHand false false).sentEvents = [] ∧
       (toggleHand false false).isHandRaised = false ∧
       (toggleHand false false).errorToasts ≠ []) := by
  decide

/-- C4 (amended): if the channel is not connected when the local user
toggles hand-raise, no `raise_hand` event is sent and a console warning is
recorded, but the optimistic local flag keeps its flipped value (it is not
rolled back) and no failure is surfaced to the user. -/
theorem toggleHand_disconnected_drops_silently (prior : Bool) :
    (toggleHand false prior).sentEvents = [] ∧
    (toggleHand false prior).warnings =
      ["Socket not connected, cannot emit: raise_hand"] ∧
    (toggleHand false prior).isHandRaised = !prior ∧
    (toggleHand false prior).errorToasts = [] := by
  cases prior <;> decide

-- ### C2: order of join emit vs handler subscription

/-- One step of the socket-signaling effect body, in source order. -/
inductive SignalAction where
  | emitJoinRoom
  | subscribeHandler (event : String)
deriving DecidableEq, Repr

/-- The eight inbound events the classroom session listens to. -/
def inboundEvents : List String :=
  ["room_state", "participant_joined", "participant_left",
   "participant_updated", "hand_raised", "new_message",
   "all_muted", "room_ended"]

/-- The socket-signaling effect body (ClassroomPage.jsx:73-137), as the
ordered sequence of its channel actions: `emit('join_room', …)` at line 76
comes first, the eight `on(event, handler)` registrations at lines 129-136
follow, all within one synchronous block. -/
def signalingEffectBody : List SignalAction :=
  [SignalAction.emitJoinRoom] ++
    inboundEvents.map SignalAction.subscribeHandler

/-- C2 counterexample: the `room_state` handler is NOT subscribed before
`join_room` is emitted — in the effect body the emit (index 0) precedes
the subscription (index 1), so the claim's ordering is false on the code. -/
theorem subscribe_before_emit_fails :
    ¬ (signalingEffectBody.indexOf
          (SignalAction.subscribeHandler "room_state")
        < signalingEffectBody.indexOf SignalAction.emitJoinRoom) := by
  decide

/-- C2 (amended): during the joining phase the `join_room` event is emitted
first, and only then are the handlers for all eight inbound events
(room_state, participant_joined, participant_left, participant_updated,
hand_raised, new_message, all_muted, room_ended) subscribed, later in the
same synchronous effect body. -/
theorem emit_then_subscribe_all (e : String) (he : e ∈ inboundEvents) :
    signalingEffectBody.indexOf SignalAction.emitJoinRoom = 0 ∧
    SignalAction.subscribeHandler e ∈ signalingEffectBody.drop 1 := by
  constructor
  · decide
  · fin_cases he <;> decide

/-- C2 witness: the `room_state` handler subscription occurs after the
`join_room` emit in the effect body. -/
theorem emit_then_subscribe_all_check :
    signalingEffectBody.indexOf SignalAction.emitJoinRoom = 0 ∧
    SignalAction.subscribeHandler "room_state" ∈ signalingEffectBody.drop 1 :=
  emit_then_subscribe_all "room_state" (by decide)

-- ### C1: re-emission of join_room after reconnect

/-- The dependencies of the socket-signaling effect that decide whether the
session is live: the channel's `connected` flag and whether `user` and
`room` are established (non-null). -/
structure SignalingDeps where
  connected : Bool
  userPresent : Bool
  roomPresent : Bool
deriving DecidableEq, Repr

/-- The events the socket-signaling effect body emits when it runs
(ClassroomPage.jsx:73-80): the body returns immediately when the channel
is not connected or `user`/`room` is missing; otherwise it calls
`emit('join_room', …)`, which sends because the socket is connected. -/
def signalingEffectEmits (d : SignalingDeps) : List String :=
  if d.connected && d.userPresent && d.roomPresent then
    (socketEmit d.connected "join_room").1
  else []

/-- React effect semantics for the signaling effect: on a re-render, if the
dependency tuple is unchanged the effect does not run again (no events);
if it changed, the previous run is cleaned up and the body runs on the new
dependencies, producing `signalingEffectEmits`. -/
def rerenderEmits (prev next : SignalingDeps) : List String :=
  if next = prev then [] else signalingEffectEmits next

/-- C1: whenever the channel's connection state transitions from
disconnected back to connected while user and room are established, the
effect re-runs (its dependencies changed) and re-emits `join_room` for the
current room. -/
theorem reconnect_reemits_join_room (prev next : SignalingDeps)
    (hdrop : prev.connected = false) (hup : next.connected = true)
    (huser : next.userPresent = true) (hroom : next.roomPresent = true) :
    rerenderEmits prev next = ["join_room"] := by
  have hne : next ≠ prev := by
    intro h
    rw [h] at hup
    rw [hdrop] at hup
    exact Bool.false_ne_true hup
  unfold rerenderEmits signalingEffectEmits
  rw [if_neg hne, hup, huser, hroom]
  decide

/-- C1 witness: a concrete disconnected→connected transition with user and
room established re-emits `join_room`. -/
theorem reconnect_reemits_join_room_check :
    rerenderEmits (SignalingDeps.mk false true true)
      (SignalingDeps.mk true true true) = ["join_room"] :=
  reconnect_reemits_join_room (SignalingDeps.mk false true true)
    (SignalingDeps.mk true true true) rfl rfl rfl rfl

-- ### C9: a late snapshot-fetch response after leave is discarded

/-- The per-session-instance state cells that the snapshot fetch writes
(ClassroomPage.jsx:25-31): the room object, the LiveKit token, the chat
messages, and the loading flag. -/
structure SessionState where
  room : Option String
  livekitToken : Option String
  messages : List ChatMessage
  loading : Bool
deriving DecidableEq, Repr

/-- Fresh state of a newly mounted session instance
(`useState(null)` / `useState([])` / `useState(true)`). -/
def initialSessionState : SessionState :=
  { room := none, livekitToken := none, messages := [], loading := true }

/-- The mounted session instances and each instance's state cells. An
instance id names one mounted component instance; React state is scoped to
the instance that created it. -/
structure AppModel where
  mounted : List Nat
  states : Nat → SessionState

/-- React's `setState` on session instance `i`: the update is applied to
`i`'s own state cells only, and only while `i` is mounted — a state update
arriving for an unmounted instance is discarded by React, and it can never
touch another instance's cells. -/
def setStateOn (app : AppModel) (i : Nat) (f : SessionState → SessionState) :
    AppModel :=
  if i ∈ app.mounted then
    { app with states := fun j => if j = i then f (app.states j) else app.states j }
  else app

/-- Mounting a fresh session instance `j` (entering a room). -/
def mountSession (app : AppModel) (j : Nat) : AppModel :=
  { mounted := j :: app.mounted,
    states := fun k => if k = j then initialSessionState else app.states k }

/-- Unmounting session instance `i` (leaving the room). -/
def unmountSession (app : AppModel) (i : Nat) : AppModel :=
  { app with mounted := app.mounted.filter (fun k => k ≠ i) }

/-- Arrival of the response to instance `i`'s in-flight `fetchRoomAndToken`
(ClassroomPage.jsx:45-70): the effect installs no cancellation (no abort
controller, no cancelled flag), so the completion handler unconditionally
runs `setRoom`, `setLivekitToken`, `setMessages`, `setLoading(false)` on
instance `i`. -/
def applyFetchResponse (app : AppModel) (i : Nat) (roomData tok : String)
    (msgs : List ChatMessage) : AppModel :=
  setStateOn
    (setStateOn
      (setStateOn
        (setStateOn app i (fun s => { s with room := some roomData }))
        i (fun s => { s with livekitToken := some tok }))
      i (fun s => { s with messages := msgs }))
    i (fun s => { s with loading := false })

/-- A state update for an instance that is no longer mounted is discarded:
it changes nothing. -/
theorem setStateOn_not_mounted {app : AppModel} {i : Nat}
    (f : SessionState → SessionState) (h : i ∉ app.mounted) :
    setStateOn app i f = app := by
  unfold setStateOn
  rw [if_neg h]

/-- C9: after instance `i` leaves (unmount) and a new session instance `j`
is entered, the late-arriving response to `i`'s in-flight snapshot fetch is
discarded entirely: it changes nothing — in particular it never mutates the
room, token, chat, or loading state of the departed instance's cells or of
the newly entered session. -/
theorem late_fetch_response_discarded (app : AppModel) (i j : Nat)
    (roomData tok : String) (msgs : List ChatMessage) (hij : j ≠ i) :
    applyFetchResponse (mountSession (unmountSession app i) j) i roomData tok msgs
      = mountSession (unmountSession app i) j := by
  have hnm : i ∉ (mountSession (unmountSession app i) j).mounted := by
    simp only [mountSession, unmountSession, List.mem_cons, List.mem_filter]
    rintro (h | ⟨-, h⟩)
    · exact hij h.symm
    · simp at h
  unfold applyFetchResponse
  rw [setStateOn_not_mounted _ hnm, setStateOn_not_mounted _ hnm,
    setStateOn_not_mounted _ hnm, setStateOn_not_mounted _ hnm]

/-- A concrete model with instance 5 mounted, used to check C9. -/
def appBefore : AppModel :=
  { mounted := [5], states := fun _ => initialSessionState }

/-- C9 witness: instance 5 leaves, instance 7 enters, and the late response
to instance 5's fetch leaves the model exactly as it was. -/
theorem late_fetch_response_discarded_check :
    applyFetchResponse (mountSession (unmountSession appBefore 5) 7) 5
        "roomA" "tokenA" [ChatMessage.mk 0 "hi"]
      = mountSession (unmountSession appBefore 5) 7 :=
  late_fetch_response_discarded appBefore 5 7 "roomA" "tokenA"
    [ChatMessage.mk 0 "hi"] (by decide)
